import Mathlib

/-!
# Shallow embedding of the devops-lab backend core

This file embeds the backend of the repository (a single-table customer CRUD
service) in Lean 4 and proves properties of it.

Sources embedded:
* `app/backend/app/controllers/customer.controller.js` — the six request
  handlers (create, findAll, findOne, update, delete, deleteAll).
* the Sequelize `customer` model definition (`sequelize.define('customer', …)`
  with `firstname`/`lastname` `allowNull: false`, optional `age`/`address`,
  auto-increment integer `id`, `timestamps: true`) — the persistence layer is
  modelled as a table of rows with postgres semantics (`UPDATE`'s affected
  count is the number of matched rows; `allowNull: false` rejects `null` but
  accepts the empty string; no `notEmpty` validator is declared).
* `app/backend/server.js` — the startup sequencer `connectDB` (retry with
  linear backoff capped at 30000 ms, at most 10 attempts, `process.exit(1)` on
  exhaustion), the health-check route, and the top-level initialization order
  including the `setTimeout(…, 1000)` that registers the customer routes.

JavaScript value conventions:
* a request-body string field is `Option String`; `none` stands for a field
  that is absent, `undefined` or `null` — all of which are falsy, like `""`
  (helper `jsFalsy`);
* `error.message || 'fallback'` is `jsOrElse`;
* an update-body field is `JVal α` distinguishing `absent` (key not present:
  the column is not touched) from `null` (key present with JSON `null`:
  Sequelize sets the column to SQL `NULL`, which the `allowNull: false`
  validator rejects for `firstname`/`lastname`) from `val a`.

Persistence errors (database unreachable, driver fault, …) are injected into
each handler as a `fault : Option String` argument carrying `error.message`;
`fault = none` is a fault-free execution of the persistence layer.
-/

/-- A stored row of the `customers` table, per the Sequelize model definition:
auto-increment integer primary key, required `firstname`/`lastname`, optional
`age`/`address`, and `timestamps: true` (`createdAt`/`updatedAt` managed by the
persistence layer). -/
structure Customer where
  id : Nat
  firstname : String
  lastname : String
  age : Option Int
  address : Option String
  createdAt : Nat
  updatedAt : Nat
deriving Repr, DecidableEq

/-- The `customers` table: the rows plus the auto-increment sequence value the
next insert will use (postgres `SERIAL`). -/
structure Table where
  nextId : Nat
  rows : List Customer
deriving Repr, DecidableEq

/-- The empty table a fresh database starts from (`SERIAL` starts at 1). -/
def initTable : Table := { nextId := 1, rows := [] }

/-- A JSON request-body field for `Customer.update`: absent key, explicit
`null`, or a value. -/
inductive JVal (α : Type) where
  | absent
  | null
  | val (a : α)
deriving Repr, DecidableEq

/-- Body of a create request (`req.body`). The controller destructures
`const { firstname, lastname, age, address } = req.body`; any other field a
client may send — such as `id`, `createdAt` or `updatedAt` — is carried here
so that theorems can state that it is never read. -/
structure CreateBody where
  firstname : Option String
  lastname : Option String
  age : Option Int
  address : Option String
  idField : Option Nat
  createdAtField : Option Nat
  updatedAtField : Option Nat
deriving Repr, DecidableEq

/-- Body of an update request (`req.body`), passed through unchanged to
`Customer.update`. Fields are the mutable columns of the model. -/
structure UpdateBody where
  firstname : JVal String
  lastname : JVal String
  age : JVal Int
  address : JVal String
deriving Repr, DecidableEq

/-- JavaScript truth test on an optional string: `!x` is true for a missing
field, `undefined`, `null` and the empty string. -/
def jsFalsy : Option String → Bool
  | none => true
  | some s => s = ""

/-- JavaScript `m || d` on strings: the fallback `d` is used when `m` is
falsy, i.e. empty. -/
def jsOrElse (m d : String) : String :=
  if m = "" then d else m

/-- A response body: a `{ message: … }` object, a single record, an array of
records, or the health-check `{ message, status }` object. -/
inductive RespBody where
  | msg (s : String)
  | record (c : Customer)
  | records (cs : List Customer)
  | health (message status : String)
deriving Repr, DecidableEq

/-- An HTTP response: status code and JSON body. -/
structure Resp where
  status : Nat
  body : RespBody
deriving Repr, DecidableEq

/-- `Customer.create({firstname, lastname, age, address})`: inserts a fresh
row under the next auto-increment id, with both timestamps set to the current
time. A persistence fault surfaces as the thrown error's message. -/
def dbCreate (t : Table) (f l : String) (age : Option Int) (addr : Option String)
    (now : Nat) (fault : Option String) : Except String (Customer × Table) :=
  match fault with
  | some m => .error m
  | none =>
    let c : Customer :=
      { id := t.nextId, firstname := f, lastname := l, age := age,
        address := addr, createdAt := now, updatedAt := now }
    .ok (c, { nextId := t.nextId + 1, rows := t.rows ++ [c] })

/-- Apply an update body to one row: each present field replaces the column
(`null` clears a nullable column), and `updatedAt` is refreshed. -/
def applyUpdate (c : Customer) (b : UpdateBody) (now : Nat) : Customer :=
  { c with
    firstname := match b.firstname with | .val s => s | _ => c.firstname
    lastname := match b.lastname with | .val s => s | _ => c.lastname
    age := match b.age with | .absent => c.age | .null => none | .val a => some a
    address := match b.address with | .absent => c.address | .null => none | .val a => some a
    updatedAt := now }

/-- `Customer.update(req.body, { where: { id } })`: validation rejects `null`
for the `allowNull: false` columns; otherwise every matched row is updated and
the affected-row count (postgres: matched rows) is returned. -/
def dbUpdate (t : Table) (i : Nat) (b : UpdateBody) (now : Nat)
    (fault : Option String) : Except String (Nat × Table) :=
  match fault with
  | some m => .error m
  | none =>
    if b.firstname = .null ∨ b.lastname = .null then
      .error "notNull Violation"
    else
      .ok (t.rows.countP (fun c => c.id = i),
        { t with rows := t.rows.map (fun c => if c.id = i then applyUpdate c b now else c) })

/-- `Customer.destroy({ where: { id } })`: deletes the matched rows and
returns how many were deleted. -/
def dbDestroyOne (t : Table) (i : Nat) (fault : Option String) :
    Except String (Nat × Table) :=
  match fault with
  | some m => .error m
  | none =>
    .ok (t.rows.countP (fun c => c.id = i),
      { t with rows := t.rows.filter (fun c => ¬ c.id = i) })

/-- `Customer.destroy({ where: {}, truncate: false })`: deletes every row and
returns the count. -/
def dbDestroyAll (t : Table) (fault : Option String) : Except String (Nat × Table) :=
  match fault with
  | some m => .error m
  | none => .ok (t.rows.length, { t with rows := [] })

/-- `exports.create`: destructures `firstname, lastname, age, address` from the
body, answers 400 when `!firstname || !lastname`, otherwise inserts and
answers 201 with the created record; a caught error yields 500 with
`error.message || 'Error creating customer'`. -/
def create (t : Table) (b : CreateBody) (now : Nat) (fault : Option String) :
    Resp × Table :=
  if jsFalsy b.firstname || jsFalsy b.lastname then
    ({ status := 400, body := .msg "Firstname and Lastname are required!" }, t)
  else
    match dbCreate t (b.firstname.getD "") (b.lastname.getD "") b.age b.address now fault with
    | .ok (c, t') => ({ status := 201, body := .record c }, t')
    | .error m => ({ status := 500, body := .msg (jsOrElse m "Error creating customer") }, t)

/-- `exports.findAll`: answers 200 with every row; a caught error yields 500
with `error.message || 'Error retrieving customers'`. -/
def findAll (t : Table) (fault : Option String) : Resp :=
  match fault with
  | some m => { status := 500, body := .msg (jsOrElse m "Error retrieving customers") }
  | none => { status := 200, body := .records t.rows }

/-- `exports.findOne`: `findByPk`, 404 with a message naming the id when no
row exists, else 200 with the record; a caught error yields 500 with a generic
message naming the id. -/
def findOne (t : Table) (i : Nat) (fault : Option String) : Resp :=
  match fault with
  | some _ => { status := 500, body := .msg s!"Error retrieving customer with id={i}" }
  | none =>
    match t.rows.find? (fun c => c.id = i) with
    | none => { status := 404, body := .msg s!"Customer with id={i} not found" }
    | some c => { status := 200, body := .record c }

/-- `exports.update`: passes the body to `Customer.update`; answers 200 with a
confirmation when exactly one row was affected, else 404; a caught error
yields 500 with a generic message naming the id. -/
def update (t : Table) (i : Nat) (b : UpdateBody) (now : Nat)
    (fault : Option String) : Resp × Table :=
  match dbUpdate t i b now fault with
  | .ok (n, t') =>
    if n = 1 then
      ({ status := 200, body := .msg "Customer updated successfully" }, t')
    else
      ({ status := 404, body := .msg s!"Cannot update customer with id={i}" }, t')
  | .error _ =>
    ({ status := 500, body := .msg s!"Error updating customer with id={i}" }, t)

/-- `exports.delete`: destroys the row with the given id; 200 with a
confirmation when exactly one row was deleted, else 404; a caught error yields
500 with a generic message naming the id. -/
def deleteOne (t : Table) (i : Nat) (fault : Option String) : Resp × Table :=
  match dbDestroyOne t i fault with
  | .ok (n, t') =>
    if n = 1 then
      ({ status := 200, body := .msg "Customer deleted successfully" }, t')
    else
      ({ status := 404, body := .msg s!"Cannot delete customer with id={i}" }, t')
  | .error _ =>
    ({ status := 500, body := .msg s!"Error deleting customer with id={i}" }, t)

/-- `exports.deleteAll`: destroys every row and answers 200 with the count in
the message; a caught error yields 500 with
`error.message || 'Error deleting all customers'`. -/
def deleteAll (t : Table) (fault : Option String) : Resp × Table :=
  match dbDestroyAll t fault with
  | .ok (n, t') =>
    ({ status := 200, body := .msg s!"{n} customers deleted successfully" }, t')
  | .error m =>
    ({ status := 500, body := .msg (jsOrElse m "Error deleting all customers") }, t)

/-- One mutating request against the service (the read-only requests do not
change the table). -/
inductive Step where
  | createS (b : CreateBody) (now : Nat) (fault : Option String)
  | updateS (i : Nat) (b : UpdateBody) (now : Nat) (fault : Option String)
  | deleteOneS (i : Nat) (fault : Option String)
  | deleteAllS (fault : Option String)
deriving Repr, DecidableEq

/-- The table after handling one request. -/
def applyStep (t : Table) : Step → Table
  | .createS b now fault => (create t b now fault).2
  | .updateS i b now fault => (update t i b now fault).2
  | .deleteOneS i fault => (deleteOne t i fault).2
  | .deleteAllS fault => (deleteAll t fault).2

/-- The table after a sequence of requests. -/
def runSteps (t : Table) (steps : List Step) : Table :=
  steps.foldl applyStep t

/-- A table state is reachable when some request sequence produces it from the
empty table. -/
def reachable (t : Table) : Prop :=
  ∃ steps : List Step, runSteps initTable steps = t

/-!
## Startup sequencer (`server.js`)

`connectDB` is modelled as a function of the outcome of each numbered
connection attempt (`o n = true` when attempt `n`'s `authenticate()` and
`sync({force: false})` both succeed). The event-loop time at which each event
happens is tracked in milliseconds, with the attempt's asynchronous database
work idealized as instantaneous: attempt 1 runs at time 0, and a failed
attempt `n < maxRetries` schedules attempt `n + 1` after
`Math.min(5000 * n, 30000)` ms. The recursion is written structurally over
`remaining = maxRetries - retries`, the number of attempts the `retries <
maxRetries` guard still allows.
-/

/-- `const maxRetries = 10`. -/
def maxRetries : Nat := 10

/-- `Math.min(5000 * retries, 30000)`: the delay scheduled after failed
attempt number `n`. -/
def delayAfter (n : Nat) : Nat := min (5000 * n) 30000

/-- Final outcome of the `connectDB` retry loop: `dbConnected = true` after
attempt `k` at the given time, or `process.exit(1)` at the given time. -/
inductive ConnectOutcome where
  | connected (attempt : Nat) (time : Nat)
  | exited (code : Nat) (time : Nat)
deriving Repr, DecidableEq

/-- The retry loop body. `remaining` is `maxRetries - retries` (how many
attempts the guard still allows), `retries` the counter before the `retries++`
of this call, `time` the current event-loop time. The `remaining = 0` branch
is never reached when starting from `maxRetries ≥ 1`. -/
def connectGo (o : Nat → Bool) : Nat → Nat → Nat → ConnectOutcome
  | 0, _, time => .exited 1 time
  | remaining + 1, retries, time =>
    let r := retries + 1
    if o r then
      .connected r time
    else if remaining = 0 then
      .exited 1 time
    else
      connectGo o remaining r (time + delayAfter r)

/-- `connectDB()` as called at startup: counter 0, time 0. -/
def connectRun (o : Nat → Bool) : ConnectOutcome :=
  connectGo o maxRetries 0 0

/-- How many connection attempts a finished run made: `k` when attempt `k`
succeeded, all `maxRetries` of them when the process exited. -/
def attemptsMade : ConnectOutcome → Nat
  | .connected k _ => k
  | .exited _ _ => maxRetries

/-- Event-loop time at which attempt `n` starts: attempt 1 at 0, attempt
`n + 1` after the delay scheduled by failed attempt `n`. -/
def attemptTime : Nat → Nat
  | 0 => 0
  | 1 => 0
  | n + 2 => attemptTime (n + 1) + delayAfter (n + 1)

/-- `setTimeout(() => { require('./app/routes/customer.routes')(app); … },
1000)`: the customer routes are registered at a fixed 1000 ms after startup,
with no condition on the database state. -/
def routeRegistrationTime : Nat := 1000

/-- Whether the route-registration timer ever fires in a run: it does unless
`process.exit(1)` terminates the process strictly before the 1000 ms mark. -/
def routesEverRegistered (o : Nat → Bool) : Bool :=
  match connectRun o with
  | .connected _ _ => true
  | .exited _ t => routeRegistrationTime ≤ t

/-- Whether, in a run that reaches the connected state, the routes were
already registered before the database connection completed. -/
def routesRegisteredBeforeConnected (o : Nat → Bool) : Bool :=
  match connectRun o with
  | .connected _ t => routeRegistrationTime < t
  | .exited _ _ => false

/-- The database-connection state the rest of the process can observe. -/
inductive DbState where
  | connecting (attempt : Nat)
  | connected
  | failed
deriving Repr, DecidableEq

/-- `app.get('/', (req, res) => { res.json({ message: 'Customer Management
API', status: 'ok' }); })`: the handler reads nothing but `req`/`res`, so its
response is the same fixed 200 whatever the database state. -/
def healthCheck (_db : DbState) : Resp :=
  { status := 200, body := .health "Customer Management API" "ok" }

/-- The top-level effects of `server.js`, in program order. -/
inductive InitEvent where
  | useCors
  | useJsonParser
  | registerHealth
  | startConnect
  | scheduleRouteTimer (delayMs : Nat)
  | registerErrorHandler
  | listen
deriving Repr, DecidableEq

/-- The statement order of `server.js`: middleware, health-check route,
`connectDB()`, the 1000 ms route-registration timer, the error handler,
`app.listen`. -/
def serverInit : List InitEvent :=
  [.useCors, .useJsonParser, .registerHealth, .startConnect,
   .scheduleRouteTimer routeRegistrationTime, .registerErrorHandler, .listen]

/-!
## Invariants of the table
-/

/-- Every stored record has a non-empty `firstname` and `lastname` (the
spec's data-model invariant). -/
def NamesNonEmpty (t : Table) : Prop :=
  ∀ c ∈ t.rows, c.firstname ≠ "" ∧ c.lastname ≠ ""

/-- All stored ids are below the auto-increment sequence value, so a fresh
insert never collides with an existing id. -/
def WfIds (t : Table) : Prop :=
  ∀ c ∈ t.rows, c.id < t.nextId

/-- Whether a request avoids the one hole in name validation: an update body
whose `firstname` or `lastname` is the (non-null) empty string. -/
def stepKeepsNames : Step → Bool
  | .updateS _ b _ _ => !(b.firstname == .val "" || b.lastname == .val "")
  | _ => true

theorem jsFalsy_eq_false {o : Option String} (h : jsFalsy o = false) :
    ∃ s, o = some s ∧ s ≠ "" := by
  cases o with
  | none => simp [jsFalsy] at h
  | some s =>
    refine ⟨s, rfl, ?_⟩
    simpa [jsFalsy] using h

theorem map_update_no_match {rows : List Customer} {i : Nat}
    {f : Customer → Customer} (h : ∀ c ∈ rows, c.id ≠ i) :
    rows.map (fun c => if c.id = i then f c else c) = rows := by
  induction rows with
  | nil => rfl
  | cons a l ih =>
    simp only [List.map_cons, List.cons.injEq]
    constructor
    · rw [if_neg (h a (by simp))]
    · exact ih fun c hc => h c (by simp [hc])

theorem find?_append_no_match {rows : List Customer} {p : Customer → Bool}
    (h : ∀ c ∈ rows, p c = false) (l : List Customer) :
    (rows ++ l).find? p = l.find? p := by
  induction rows with
  | nil => rfl
  | cons a rs ih =>
    simp only [List.cons_append, List.find?_cons, h a (by simp)]
    exact ih fun c hc => h c (by simp [hc])

theorem applyUpdate_id (c : Customer) (b : UpdateBody) (now : Nat) :
    (applyUpdate c b now).id = c.id := rfl

theorem update_table_none {b : UpdateBody} (t : Table) (i now : Nat)
    (hnull : ¬(b.firstname = JVal.null ∨ b.lastname = JVal.null)) :
    (update t i b now none).2 =
      { t with rows := t.rows.map (fun c => if c.id = i then applyUpdate c b now else c) } := by
  simp only [update, dbUpdate, if_neg hnull]
  split <;> rfl

theorem update_table_null {b : UpdateBody} (t : Table) (i now : Nat)
    (hnull : b.firstname = JVal.null ∨ b.lastname = JVal.null) :
    (update t i b now none).2 = t := by
  simp only [update, dbUpdate, if_pos hnull]

theorem deleteOne_table_none (t : Table) (i : Nat) :
    (deleteOne t i none).2 = { t with rows := t.rows.filter (fun c => ¬ c.id = i) } := by
  simp only [deleteOne, dbDestroyOne]
  split <;> rfl

theorem deleteAll_table_none (t : Table) :
    (deleteAll t none).2 = { t with rows := [] } := rfl

theorem namesNonEmpty_step {t : Table} {s : Step} (ht : NamesNonEmpty t)
    (hs : stepKeepsNames s = true) : NamesNonEmpty (applyStep t s) := by
  cases s with
  | createS b now fault =>
    simp only [applyStep, create]
    by_cases hb : (jsFalsy b.firstname || jsFalsy b.lastname) = true
    · simpa [hb] using ht
    · rw [if_neg (by simp [hb])]
      cases fault with
      | some m => exact ht
      | none =>
        obtain ⟨hf, hl⟩ := by simpa using hb
        obtain ⟨f, hfe, hfne⟩ := jsFalsy_eq_false hf
        obtain ⟨l, hle, hlne⟩ := jsFalsy_eq_false hl
        intro c hc
        simp only [dbCreate, List.mem_append, List.mem_singleton] at hc
        rcases hc with hc | hc
        · exact ht c hc
        · subst hc
          simp [hfe, hle, hfne, hlne]
  | updateS i b now fault =>
    simp only [applyStep]
    cases fault with
    | some m => exact ht
    | none =>
      by_cases hnull : b.firstname = JVal.null ∨ b.lastname = JVal.null
      · rw [update_table_null t i now hnull]
        exact ht
      · rw [update_table_none t i now hnull]
        have hbf : b.firstname ≠ JVal.val "" ∧ b.lastname ≠ JVal.val "" := by
          simpa [stepKeepsNames] using hs
        intro c hc
        simp only [List.mem_map] at hc
        obtain ⟨c0, hc0, hce⟩ := hc
        subst hce
        obtain ⟨hc1, hc2⟩ := ht c0 hc0
        by_cases hid : c0.id = i
        · rw [if_pos hid]
          constructor
          · show (match b.firstname with | .val s => s | _ => c0.firstname) ≠ ""
            cases hbv : b.firstname with
            | val s =>
              intro he
              have he' : s = "" := he
              exact hbf.1 (hbv.trans (congrArg JVal.val he'))
            | absent => exact hc1
            | null => exact hc1
          · show (match b.lastname with | .val s => s | _ => c0.lastname) ≠ ""
            cases hbv : b.lastname with
            | val s =>
              intro he
              have he' : s = "" := he
              exact hbf.2 (hbv.trans (congrArg JVal.val he'))
            | absent => exact hc2
            | null => exact hc2
        · rw [if_neg hid]
          exact ⟨hc1, hc2⟩
  | deleteOneS i fault =>
    simp only [applyStep]
    cases fault with
    | some m => exact ht
    | none =>
      intro c hc
      rw [deleteOne_table_none] at hc
      exact ht c (List.mem_of_mem_filter hc)
  | deleteAllS fault =>
    simp only [applyStep]
    cases fault with
    | some m => exact ht
    | none =>
      intro c hc
      rw [deleteAll_table_none] at hc
      simp at hc

theorem namesNonEmpty_runSteps (steps : List Step) :
    ∀ t : Table, NamesNonEmpty t → (∀ s ∈ steps, stepKeepsNames s = true) →
      NamesNonEmpty (runSteps t steps) := by
  induction steps with
  | nil => intro t ht _; exact ht
  | cons s rest ih =>
    intro t ht hs
    exact ih (applyStep t s) (namesNonEmpty_step ht (hs s (by simp)))
      (fun s' hs' => hs s' (by simp [hs']))

theorem connectGo_succ (o : Nat → Bool) (rem retries time : Nat) :
    connectGo o (rem + 1) retries time =
      if o (retries + 1) then .connected (retries + 1) time
      else if rem = 0 then .exited 1 time
      else connectGo o rem (retries + 1) (time + delayAfter (retries + 1)) := rfl

theorem attemptTime_succ (n : Nat) (h : 1 ≤ n) :
    attemptTime (n + 1) = attemptTime n + delayAfter n := by
  match n, h with
  | n + 1, _ => rfl

theorem connectGo_spec (o : Nat → Bool) :
    ∀ rem a, 1 ≤ rem → rem + a = maxRetries →
      ((∀ n, a < n → n ≤ maxRetries → o n = false) →
        connectGo o rem a (attemptTime (a + 1)) = .exited 1 (attemptTime maxRetries)) ∧
      (∀ k, a < k → k ≤ maxRetries → o k = true → (∀ j, a < j → j < k → o j = false) →
        connectGo o rem a (attemptTime (a + 1)) = .connected k (attemptTime k)) := by
  intro rem
  induction rem with
  | zero => intro a h1 _; exact absurd h1 (by decide)
  | succ rem ih =>
    intro a h1 hsum
    constructor
    · intro hfail
      have ho : o (a + 1) = false := hfail (a + 1) (by omega) (by omega)
      by_cases hrem : rem = 0
      · subst hrem
        have ha : a + 1 = maxRetries := by omega
        rw [connectGo_succ, ho, ha]
        simp
      · rw [connectGo_succ, ho]
        rw [if_neg (by simp), if_neg hrem, ← attemptTime_succ (a + 1) (by omega)]
        exact (ih (a + 1) (by omega) (by omega)).1 fun n hn1 hn2 => hfail n (by omega) hn2
    · intro k hk1 hk2 hko hprev
      by_cases hka : k = a + 1
      · subst hka
        rw [connectGo_succ, hko]
        simp
      · have ho : o (a + 1) = false := hprev (a + 1) (by omega) (by omega)
        have hrem : rem ≠ 0 := by
          have h10 : maxRetries = 10 := rfl
          omega
        rw [connectGo_succ, ho]
        rw [if_neg (by simp), if_neg hrem, ← attemptTime_succ (a + 1) (by omega)]
        exact (ih (a + 1) (by omega) (by omega)).2 k (by omega) hk2 hko
          fun j hj1 hj2 => hprev j (by omega) hj2

theorem attemptsMade_connectGo_le (o : Nat → Bool) :
    ∀ rem a t, a + rem ≤ maxRetries → attemptsMade (connectGo o rem a t) ≤ maxRetries := by
  intro rem
  induction rem with
  | zero => intro a t _; simp [connectGo, attemptsMade]
  | succ rem ih =>
    intro a t h
    rw [connectGo_succ]
    by_cases ho : o (a + 1) = true
    · rw [if_pos ho]
      show a + 1 ≤ maxRetries
      omega
    · rw [if_neg ho]
      by_cases hrem : rem = 0
      · rw [if_pos hrem]
        exact le_refl _
      · rw [if_neg hrem]
        exact ih (a + 1) _ (by omega)

/-!
## Claims
-/

/-- Claim C1, counterexample: it is not the case that every reachable state of
the customers table has only records with non-empty `firstname` and
`lastname` — `exports.update` passes `req.body` through unchanged, and the
model's `allowNull: false` rejects only `null`, not the empty string, so an
update body `{ firstname: "" }` stores an empty firstname. -/
theorem c1_counterexample :
    ¬ (∀ t : Table, reachable t → NamesNonEmpty t) := by
  intro h
  have hr : reachable
      { nextId := 2,
        rows := [{ id := 1, firstname := "", lastname := "Doe", age := none,
                   address := none, createdAt := 0, updatedAt := 1 }] } :=
    ⟨[.createS ⟨some "Jane", some "Doe", none, none, none, none, none⟩ 0 none,
      .updateS 1 ⟨.val "", .absent, .absent, .absent⟩ 1 none], by rfl⟩
  exact (h _ hr
    { id := 1, firstname := "", lastname := "Doe", age := none,
      address := none, createdAt := 0, updatedAt := 1 } (by simp)).1 rfl

/-- Claim C1, amended: the invariant does hold for every state reached
without an update whose body sets `firstname` or `lastname` to the empty
string — create rejects missing/empty names, update rejects `null` ones, and
every other operation preserves non-emptiness. -/
theorem c1_names_nonempty (steps : List Step)
    (h : ∀ s ∈ steps, stepKeepsNames s = true) :
    NamesNonEmpty (runSteps initTable steps) :=
  namesNonEmpty_runSteps steps initTable (fun c hc => by simp [initTable] at hc) h

/-- Claim C1, amended, witness: a concrete create-then-update run with no
empty-string name in any update body satisfies the invariant. -/
theorem c1_names_nonempty_witness :
    NamesNonEmpty (runSteps initTable
      [.createS ⟨some "Jane", some "Doe", none, none, none, none, none⟩ 0 none,
       .updateS 1 ⟨.val "Janet", .absent, .absent, .absent⟩ 1 none]) :=
  c1_names_nonempty
    [.createS ⟨some "Jane", some "Doe", none, none, none, none, none⟩ 0 none,
     .updateS 1 ⟨.val "Janet", .absent, .absent, .absent⟩ 1 none] (by decide)

/-- Claim C2: the code registers the routes on a fixed 1000 ms timer, not
after a successful connection. When every one of the 10 attempts fails the
process only exits at 195000 ms, long after the routes came up at 1000 ms;
and when attempt 2 succeeds (at 5000 ms) the routes were already registered
while the sequencer was still retrying. This contradicts the code's own
comment `// Routes (only after successful connection)`. -/
theorem c2_code_bug_timer_registration :
    routesEverRegistered (fun _ => false) = true ∧
    connectRun (fun _ => false) = .exited 1 195000 ∧
    routesRegisteredBeforeConnected (fun n => n == 2) = true ∧
    connectRun (fun n => n == 2) = .connected 2 5000 := by
  decide

/-- Claim C3: the retry loop increments the attempt counter on each attempt;
a failed attempt `n < 10` schedules the next attempt `delayAfter n =
min(5000·n, 30000)` ms later (so attempt `k` starts at `attemptTime k`, the
sum of those delays); if all 10 attempts fail the process exits with code 1
at `attemptTime 10 = 195000` ms; a first success on attempt `k ≤ 10` reaches
the connected state at `attemptTime k`; and no run makes more than 10
attempts. -/
theorem c3_retry_backoff_and_exhaustion (o : Nat → Bool) :
    ((∀ n, 1 ≤ n → n ≤ maxRetries → o n = false) →
      connectRun o = .exited 1 (attemptTime maxRetries)) ∧
    (∀ k, 1 ≤ k → k ≤ maxRetries → o k = true →
      (∀ j, 1 ≤ j → j < k → o j = false) →
      connectRun o = .connected k (attemptTime k)) ∧
    attemptsMade (connectRun o) ≤ maxRetries ∧
    (∀ n, 1 ≤ n → attemptTime (n + 1) = attemptTime n + min (5000 * n) 30000) ∧
    attemptTime maxRetries = 195000 := by
  have hspec := connectGo_spec o maxRetries 0 (by decide) (by decide)
  refine ⟨?_, ?_, ?_, fun n hn => attemptTime_succ n hn, by decide⟩
  · intro hfail
    exact hspec.1 fun n h1 h2 => hfail n (by omega) h2
  · intro k hk1 hk2 hko hprev
    exact hspec.2 k (by omega) hk2 hko fun j hj1 hj2 => hprev j (by omega) hj2
  · exact attemptsMade_connectGo_le o maxRetries 0 0 (by decide)

/-- Claim C3, witness: with every attempt failing, the run exits with code 1
at `attemptTime 10` ms; with a first success on attempt 3, the run connects
at `attemptTime 3` ms. -/
theorem c3_retry_witness :
    connectRun (fun _ => false) = .exited 1 (attemptTime maxRetries) ∧
    connectRun (fun n => n == 3) = .connected 3 (attemptTime 3) :=
  ⟨(c3_retry_backoff_and_exhaustion (fun _ => false)).1 (fun _ _ _ => rfl),
   (c3_retry_backoff_and_exhaustion (fun n => n == 3)).2.1 3 (by decide) (by decide)
     (by decide) (fun j hj1 hj2 => by simp only [beq_eq_false_iff_ne]; omega)⟩

/-- Claim C4, counterexample: it is not the case that the original
persistence error's message is never sent to the client — `exports.create`
answers 500 with `error.message || 'Error creating customer'`, so the
message is the response body. -/
theorem c4_counterexample :
    ¬ ∀ (t : Table) (b : CreateBody) (now : Nat) (m : String),
        (create t b now (some m)).1.body ≠ RespBody.msg m := by
  intro h
  exact h initTable ⟨some "Jane", some "Doe", none, none, none, none, none⟩ 0
    "connection refused" rfl

/-- Claim C4, amended: every persistence error makes the handler answer 500
and leaves the table unchanged; get-by-id, update and delete-one answer with
a generic message naming only the id, while create, list and delete-all put
the original error's message in the response (a generic fallback is used
only when that message is empty); no handler logs the error. -/
theorem c4_persistence_errors_500 (t : Table) (m : String) (b : CreateBody)
    (ub : UpdateBody) (i now : Nat)
    (hf : jsFalsy b.firstname = false) (hl : jsFalsy b.lastname = false) :
    create t b now (some m) =
      ({ status := 500, body := .msg (jsOrElse m "Error creating customer") }, t) ∧
    findAll t (some m) =
      { status := 500, body := .msg (jsOrElse m "Error retrieving customers") } ∧
    findOne t i (some m) =
      { status := 500, body := .msg s!"Error retrieving customer with id={i}" } ∧
    update t i ub now (some m) =
      ({ status := 500, body := .msg s!"Error updating customer with id={i}" }, t) ∧
    deleteOne t i (some m) =
      ({ status := 500, body := .msg s!"Error deleting customer with id={i}" }, t) ∧
    deleteAll t (some m) =
      ({ status := 500, body := .msg (jsOrElse m "Error deleting all customers") }, t) := by
  refine ⟨?_, rfl, rfl, rfl, rfl, rfl⟩
  simp [create, hf, hl, dbCreate]

/-- Claim C4, amended, witness: a concrete fault with message
"connection refused" produces the stated 500 responses on the empty table. -/
theorem c4_persistence_errors_500_witness :
    create initTable ⟨some "Jane", some "Doe", none, none, none, none, none⟩ 0
        (some "connection refused") =
      ({ status := 500, body := .msg (jsOrElse "connection refused" "Error creating customer") },
       initTable) ∧
    findAll initTable (some "connection refused") =
      { status := 500, body := .msg (jsOrElse "connection refused" "Error retrieving customers") } ∧
    findOne initTable 1 (some "connection refused") =
      { status := 500, body := .msg s!"Error retrieving customer with id={(1 : Nat)}" } ∧
    update initTable 1 ⟨.absent, .absent, .absent, .absent⟩ 0 (some "connection refused") =
      ({ status := 500, body := .msg s!"Error updating customer with id={(1 : Nat)}" }, initTable) ∧
    deleteOne initTable 1 (some "connection refused") =
      ({ status := 500, body := .msg s!"Error deleting customer with id={(1 : Nat)}" }, initTable) ∧
    deleteAll initTable (some "connection refused") =
      ({ status := 500, body := .msg (jsOrElse "connection refused" "Error deleting all customers") },
       initTable) :=
  c4_persistence_errors_500 initTable "connection refused"
    ⟨some "Jane", some "Doe", none, none, none, none, none⟩
    ⟨.absent, .absent, .absent, .absent⟩ 1 0 rfl rfl

/-- Claim C5: a create request whose body has a missing/empty `firstname` or
`lastname` answers 400 and leaves the table unchanged; a body with both names
non-empty never answers 400 (whatever the persistence layer then does). -/
theorem c5_create_validation (t : Table) (b : CreateBody) (now : Nat)
    (fault : Option String) :
    ((jsFalsy b.firstname || jsFalsy b.lastname) = true →
      (create t b now fault).1.status = 400 ∧ (create t b now fault).2 = t) ∧
    ((jsFalsy b.firstname || jsFalsy b.lastname) = false →
      (create t b now fault).1.status ≠ 400) := by
  constructor
  · intro h
    simp [create, h]
  · intro h
    simp only [create, h, Bool.false_eq_true, if_false]
    cases fault with
    | some m => simp [dbCreate]
    | none => simp [dbCreate]

/-- Claim C5, witness: a body with no `firstname` yields 400 on the empty
table and leaves it unchanged. -/
theorem c5_create_validation_witness :
    (create initTable ⟨none, some "Doe", none, none, none, none, none⟩ 0 none).1.status = 400 ∧
    (create initTable ⟨none, some "Doe", none, none, none, none, none⟩ 0 none).2 = initTable :=
  (c5_create_validation initTable ⟨none, some "Doe", none, none, none, none, none⟩ 0 none).1
    (by decide)

/-- Claim C6: in a fault-free update whose body does not null a required
name column, an id matching no stored record answers 404 and leaves the
table unchanged, and an id matching exactly one record answers 200 with the
confirmation message. -/
theorem c6_update_status (t : Table) (i now : Nat) (b : UpdateBody)
    (hf : b.firstname ≠ JVal.null) (hl : b.lastname ≠ JVal.null) :
    ((∀ c ∈ t.rows, c.id ≠ i) →
      update t i b now none =
        ({ status := 404, body := .msg s!"Cannot update customer with id={i}" }, t)) ∧
    (t.rows.countP (fun c => c.id = i) = 1 →
      (update t i b now none).1 =
        { status := 200, body := .msg "Customer updated successfully" }) := by
  have hnull : ¬(b.firstname = JVal.null ∨ b.lastname = JVal.null) := by
    rintro (h | h)
    exacts [hf h, hl h]
  constructor
  · intro hno
    have hcnt : t.rows.countP (fun c => c.id = i) = 0 := by
      rw [List.countP_eq_zero]
      intro c hc
      simpa using hno c hc
    have hmap : t.rows.map (fun c => if c.id = i then applyUpdate c b now else c) = t.rows :=
      map_update_no_match hno
    simp only [update, dbUpdate, if_neg hnull, hcnt, hmap]
    rfl
  · intro hone
    simp only [update, dbUpdate, if_neg hnull, hone]
    rfl

/-- Claim C6, witness: on a table holding one record with id 1, updating id 2
answers 404 and changes nothing, and updating id 1 answers 200. -/
theorem c6_update_status_witness :
    (update (Table.mk 2 [Customer.mk 1 "Jane" "Doe" none none 0 0]) 2
        ⟨.val "Janet", .absent, .absent, .absent⟩ 5 none =
      ({ status := 404, body := .msg s!"Cannot update customer with id={(2 : Nat)}" },
       Table.mk 2 [Customer.mk 1 "Jane" "Doe" none none 0 0])) ∧
    (update (Table.mk 2 [Customer.mk 1 "Jane" "Doe" none none 0 0]) 1
        ⟨.val "Janet", .absent, .absent, .absent⟩ 5 none).1 =
      { status := 200, body := .msg "Customer updated successfully" } :=
  ⟨(c6_update_status (Table.mk 2 [Customer.mk 1 "Jane" "Doe" none none 0 0]) 2 5
      ⟨.val "Janet", .absent, .absent, .absent⟩ (by decide) (by decide)).1 (by decide),
   (c6_update_status (Table.mk 2 [Customer.mk 1 "Jane" "Doe" none none 0 0]) 1 5
      ⟨.val "Janet", .absent, .absent, .absent⟩ (by decide) (by decide)).2 (by decide)⟩

/-- Claim C7: on a table whose stored ids are all below the auto-increment
value, creating a valid customer answers 201 with the created record, whose
id is the generated `nextId`, and fetching that id afterwards answers 200
with the identical record. -/
theorem c7_create_findOne_roundtrip (t : Table) (b : CreateBody) (now : Nat)
    (hw : WfIds t) (hf : jsFalsy b.firstname = false) (hl : jsFalsy b.lastname = false) :
    ∃ c : Customer,
      create t b now none =
        ({ status := 201, body := .record c },
         { nextId := t.nextId + 1, rows := t.rows ++ [c] }) ∧
      c.id = t.nextId ∧
      findOne { nextId := t.nextId + 1, rows := t.rows ++ [c] } c.id none =
        { status := 200, body := .record c } := by
  refine ⟨{ id := t.nextId, firstname := b.firstname.getD "", lastname := b.lastname.getD "",
            age := b.age, address := b.address, createdAt := now, updatedAt := now },
          ?_, rfl, ?_⟩
  · simp [create, hf, hl, dbCreate]
  · simp only [findOne]
    rw [find?_append_no_match (fun c hc => by simpa using Nat.ne_of_lt (hw c hc)) _]
    simp

/-- Claim C7, witness: creating Jane Doe on the empty table answers 201 and
the subsequent fetch by the generated id returns the same record. -/
theorem c7_create_findOne_roundtrip_witness :
    ∃ c : Customer,
      create initTable ⟨some "Jane", some "Doe", some 30, some "12 Main St",
          none, none, none⟩ 5 none =
        ({ status := 201, body := .record c },
         { nextId := initTable.nextId + 1, rows := initTable.rows ++ [c] }) ∧
      c.id = initTable.nextId ∧
      findOne { nextId := initTable.nextId + 1, rows := initTable.rows ++ [c] } c.id none =
        { status := 200, body := .record c } :=
  c7_create_findOne_roundtrip initTable
    ⟨some "Jane", some "Doe", some 30, some "12 Main St", none, none, none⟩ 5
    (fun c hc => by simp [initTable] at hc) (by decide) (by decide)

/-- Claim C8: from any table state, delete-all answers 200 with the number of
deleted records in its message, and a list performed on the resulting state
answers 200 with the empty collection. -/
theorem c8_deleteAll_then_findAll_empty (t : Table) :
    (deleteAll t none).1 =
      { status := 200, body := .msg s!"{t.rows.length} customers deleted successfully" } ∧
    findAll (deleteAll t none).2 none = { status := 200, body := .records [] } := by
  constructor
  · rfl
  · rw [deleteAll_table_none]
    rfl

/-- Claim C9: `exports.create` reads only `firstname`, `lastname`, `age` and
`address` from the body — two bodies agreeing on those four fields produce
the same response and the same table, whatever other fields (`id`,
`createdAt`, `updatedAt`, …) they carry — and any record it answers 201 with
has the system-generated id `t.nextId`. -/
theorem c9_create_ignores_extra_fields (t : Table) (b b' : CreateBody) (now : Nat)
    (fault : Option String) (h1 : b.firstname = b'.firstname)
    (h2 : b.lastname = b'.lastname) (h3 : b.age = b'.age) (h4 : b.address = b'.address) :
    create t b now fault = create t b' now fault ∧
    ∀ c : Customer, (create t b now fault).1 = { status := 201, body := .record c } →
      c.id = t.nextId := by
  constructor
  · simp only [create, h1, h2, h3, h4]
  · intro c hc
    by_cases hv : (jsFalsy b.firstname || jsFalsy b.lastname) = true
    · simp [create, hv] at hc
    · simp only [create, hv, Bool.false_eq_true, if_false] at hc
      cases fault with
      | some m => simp [dbCreate] at hc
      | none =>
        simp only [dbCreate, Resp.mk.injEq, RespBody.record.injEq] at hc
        rw [← hc.2]

/-- Claim C9, witness: a body smuggling `id: 999` and client timestamps
behaves exactly like the same body without them. -/
theorem c9_create_ignores_extra_fields_witness :
    create initTable ⟨some "Jane", some "Doe", none, none, some 999, some 7, some 8⟩ 0 none =
    create initTable ⟨some "Jane", some "Doe", none, none, none, none, none⟩ 0 none :=
  (c9_create_ignores_extra_fields initTable
    ⟨some "Jane", some "Doe", none, none, some 999, some 7, some 8⟩
    ⟨some "Jane", some "Doe", none, none, none, none, none⟩ 0 none rfl rfl rfl rfl).1

/-- Claim C10: the health-check route is registered before `connectDB()` is
called in the `server.js` initialization order, and its handler answers the
same fixed 200 `{ message, status }` response whatever the database state
(connecting, connected or failed). -/
theorem c10_health_check_independent (s s' : DbState) :
    healthCheck s = healthCheck s' ∧
    healthCheck s = { status := 200, body := .health "Customer Management API" "ok" } ∧
    serverInit.indexOf .registerHealth < serverInit.indexOf .startConnect := by
  exact ⟨rfl, rfl, by decide⟩
